import Mathlib

/- Shallow embedding of the taco-wallet-discord-bot signing pipeline.
   Sources: src/config.py, src/user_operations.py, src/porter.py,
   src/smart_account.py, src/bundler.py, src/app.py.
   Bytes are modelled as List Nat (each element a byte value), Python strings as
   List Char or String, machine integers as Nat (Python integers are unbounded),
   and the external keccak256 primitive (Web3.keccak) as an explicit function
   parameter, since its internals live outside this repository. -/

/-- Models Python int.to_bytes(k, byteorder=big): big-endian, fixed width k bytes. -/
def natToBytesBE : Nat → Nat → List Nat
  | 0, _ => []
  | k + 1, n => natToBytesBE k (n / 256) ++ [n % 256]

/-- Models the lowercase hexadecimal digit character for a value below 16: code
point 48 + d for a decimal digit, code point 87 + d for the letters a to f. -/
def pyHexDigitChar (d : Nat) : Char :=
  Char.ofNat (d + (if d < 10 then 48 else 87))

/-- Lowercase hexadecimal digit characters, exactly the alphabet produced by Python
hex() and bytes.hex(). -/
def hexAlphabet : List Char := (List.range 16).map pyHexDigitChar

/-- Fuel-based base 16 digit expansion of a natural number, most significant digit
first, with no leading zeros; the fuel is always at least the digit count when the
function is applied as pyHexDigits does. -/
def pyHexDigitsAux : Nat → Nat → List Char
  | 0, _ => []
  | fuel + 1, n => if n = 0 then [] else pyHexDigitsAux fuel (n / 16) ++ [pyHexDigitChar (n % 16)]

/-- Models the digit part of Python hex(n) for a nonnegative n: minimal lowercase
digits, with a single zero digit for n = 0. -/
def pyHexDigits (n : Nat) : List Char :=
  if n = 0 then ['0'] else pyHexDigitsAux n n

/-- Models Python hex(n) for a nonnegative integer n: the characters 0x followed by
the lowercase digits. -/
def pyHex (n : Nat) : List Char := '0' :: 'x' :: pyHexDigits n

/-- Models Python bytes.hex(): two lowercase hexadecimal digits per byte. -/
def bytesHexDigits : List Nat → List Char
  | [] => []
  | b :: t => pyHexDigitChar (b / 16 % 16) :: pyHexDigitChar (b % 16) :: bytesHexDigits t

/-- Models the recurring Python expression 0x + data.hex() from src/bundler.py. -/
def bytesHex0x (l : List Nat) : List Char := '0' :: 'x' :: bytesHexDigits l

/-- Value of a single hexadecimal character, as accepted by Python int(s, 16). -/
def hexCharVal (c : Char) : Nat :=
  if 48 ≤ c.toNat ∧ c.toNat ≤ 57 then c.toNat - 48
  else if 97 ≤ c.toNat ∧ c.toNat ≤ 102 then c.toNat - 87
  else if 65 ≤ c.toNat ∧ c.toNat ≤ 70 then c.toNat - 55
  else 0

/-- Models Python int(s, 16) on a well-formed hexadecimal string, accepting an
optional 0x or 0X prefix, as applied to signer identifiers in src/porter.py. -/
def hexVal (s : String) : Nat :=
  let cs : List Char :=
    match s.toList with
    | '0' :: 'x' :: rest => rest
    | '0' :: 'X' :: rest => rest
    | other => other
  cs.foldl (fun acc c => 16 * acc + hexCharVal c) 0

/-- Converts a hexadecimal character string without prefix to bytes, two characters
per byte. Models Web3.to_bytes(hexstr=...) from src/config.py. -/
def hexPairsToBytes : List Char → List Nat
  | c1 :: c2 :: rest => (16 * hexCharVal c1 + hexCharVal c2) :: hexPairsToBytes rest
  | [c] => [hexCharVal c]
  | [] => []

/-- The Infinitism SimpleAccountFactory address constant from src/config.py. -/
def SMART_ACCOUNT_FACTORY : String := "0x9406Cc6185a346906296840746125a0E44976454"

/-- Byte form of the factory address, as computed by Web3.to_bytes at
src/config.py line 45. -/
def factoryAddressBytes : List Nat := hexPairsToBytes (SMART_ACCOUNT_FACTORY.toList.drop 2)

/-- Models the 32 byte salt user_id_int.to_bytes(32, byteorder=big) from
src/config.py line 37. -/
def salt32 (user_id_int : Nat) : List Nat := natToBytesBE 32 user_id_int

/-- Byte string that compute_smart_account_address actually hashes (src/config.py
line 46): the factory address bytes, then the salt, then keccak of the salt. The
hash function kc is a parameter because keccak256 is an external library primitive. -/
def codeCombined (kc : List Nat → List Nat) (user_id_int : Nat)
    (factory_bytes : List Nat) : List Nat :=
  factory_bytes ++ salt32 user_id_int ++ kc (salt32 user_id_int)

/-- Models compute_smart_account_address from src/config.py: the returned address is
the low 20 bytes of kc applied to codeCombined (hex()[-40:] over a 32 byte digest).
Checksum formatting only changes letter case of the rendered string and is omitted
from this byte-level model. -/
def compute_smart_account_address (kc : List Nat → List Nat) (user_id_int : Nat) : List Nat :=
  (kc (codeCombined kc user_id_int factoryAddressBytes)).drop 12

/-- Modelled from the spec: the CREATE2 preimage hash(0xFF, factory, salt,
initCodeHash) stated in section 4.2 of the spec and in the docstring of
compute_smart_account_address, kept as a separate definition so it can be compared
with the byte string the code actually hashes. -/
def specCreate2Preimage (factory_bytes salt initCodeHash : List Nat) : List Nat :=
  0xff :: (factory_bytes ++ salt ++ initCodeHash)

/-- Default call gas limit from the DEFAULT_GAS_LIMITS dictionary in src/config.py. -/
def DEFAULT_GAS_LIMIT_call : Nat := 300000

/-- Default verification gas limit from DEFAULT_GAS_LIMITS in src/config.py. -/
def DEFAULT_GAS_LIMIT_verification : Nat := 1000000

/-- Default pre-verification gas from DEFAULT_GAS_LIMITS in src/config.py. -/
def DEFAULT_GAS_LIMIT_pre_verification : Nat := 60000

/-- Default fee value from DEFAULT_GAS_LIMITS in src/config.py. -/
def DEFAULT_GAS_LIMIT_fee : Nat := 1100000

/-- Models the nucypher UserOperation record as constructed and consumed in this
repository (src/user_operations.py, src/bundler.py, src/smart_account.py).
Addresses are character strings as in the source, byte fields are byte lists,
integer fields are Nat. -/
structure UserOperation where
  sender : List Char
  nonce : Nat
  factory : Option (List Char)
  factory_data : List Nat
  call_data : List Nat
  call_gas_limit : Nat
  verification_gas_limit : Nat
  pre_verification_gas : Nat
  max_fee_per_gas : Nat
  max_priority_fee_per_gas : Nat
  paymaster : Option (List Char)
  paymaster_verification_gas_limit : Nat
  paymaster_post_op_gas_limit : Nat
  paymaster_data : List Nat
  signature : List Nat
deriving DecidableEq

/-- Models the UTF-8 bytes of an ASCII string literal, used for selector preimages. -/
def strBytes (s : String) : List Nat := s.toList.map Char.toNat

/-- Models eth_abi encoding of an address argument: 12 zero bytes then the 20
address bytes. -/
def addressWord (a : List Nat) : List Nat := List.replicate 12 0 ++ a

/-- Models eth_abi encoding of a uint256 argument: 32 bytes, big-endian. -/
def uintWord (n : Nat) : List Nat := natToBytesBE 32 n

/-- Models EXECUTE_SELECTOR from src/user_operations.py line 15: the first 4 bytes
of keccak over the execute((address,uint256,bytes)) signature text. -/
def EXECUTE_SELECTOR (kc : List Nat → List Nat) : List Nat :=
  (kc (strBytes "execute((address,uint256,bytes))")).take 4

/-- Models CREATE_ACCOUNT_SELECTOR from src/user_operations.py line 43: the first 4
bytes of keccak over the createAccount(address,uint256) signature text. -/
def CREATE_ACCOUNT_SELECTOR (kc : List Nat → List Nat) : List Nat :=
  (kc (strBytes "createAccount(address,uint256)")).take 4

/-- Models eth_abi encode of the single dynamic tuple (address,uint256,bytes) with
an empty bytes payload, as at src/user_operations.py lines 57 to 60: one offset
word (32), then the address word, the value word, the inner offset to the bytes
part (96), and the zero length word of the empty payload. -/
def encodeExecuteTuple (to_address : List Nat) (amount_wei : Nat) : List Nat :=
  uintWord 32 ++ addressWord to_address ++ uintWord amount_wei ++ uintWord 96 ++ uintWord 0

/-- Models encode([address, uint256], [dummy_owner, salt]) from
src/user_operations.py lines 49 to 52. -/
def encodeCreateAccount (owner : List Nat) (salt : Nat) : List Nat :=
  addressWord owner ++ uintWord salt

/-- The all-zero dummy owner address from src/user_operations.py line 46. -/
def dummy_owner : List Nat := List.replicate 20 0

/-- Models create_eth_transfer_user_operation from src/user_operations.py. The
chain read web3.eth.get_code(smart_account) is passed in as the code argument; kc
is the external keccak256 primitive; the optional user_id carries int(user_id) when
a truthy identifier string was supplied. Checksumming of to_address does not change
its ABI-encoded address bytes and is omitted; a malformed address raises inside
Web3.to_checksum_address and is outside this total model. -/
def create_eth_transfer_user_operation (kc : List Nat → List Nat) (code : List Nat)
    (smart_account : List Char) (to_address : List Nat) (amount_wei : Nat)
    (nonce : Nat) (user_id : Option Nat) : UserOperation :=
  let fd : Option (List Char) × List Nat :=
    if code.length = 0 then
      match user_id with
      | some salt =>
        (some SMART_ACCOUNT_FACTORY.toList,
          CREATE_ACCOUNT_SELECTOR kc ++ encodeCreateAccount dummy_owner salt)
      | none => (none, [])
    else (none, [])
  { sender := smart_account
    nonce := nonce
    factory := fd.1
    factory_data := fd.2
    call_data := EXECUTE_SELECTOR kc ++ encodeExecuteTuple to_address amount_wei
    call_gas_limit := DEFAULT_GAS_LIMIT_call
    verification_gas_limit := DEFAULT_GAS_LIMIT_verification
    pre_verification_gas := DEFAULT_GAS_LIMIT_pre_verification
    max_fee_per_gas := DEFAULT_GAS_LIMIT_fee
    max_priority_fee_per_gas := DEFAULT_GAS_LIMIT_fee
    paymaster := none
    paymaster_verification_gas_limit := 0
    paymaster_post_op_gas_limit := 0
    paymaster_data := []
    signature := [] }

/-- Modelled from the spec: SignedUserOperation is imported from user_operations in
src/porter.py and src/bundler.py but its class body is not among the provided
sources. Section 3 of the spec describes SignedOperation as an Operation paired
with its final combined signature bytes, which matches every use site. -/
structure SignedUserOperation where
  user_operation : UserOperation
  signature : List Nat
deriving DecidableEq

/-- Models nucypher_core SignatureResponse as used in src/porter.py: the signer
identifier (a hexadecimal string), the raw signature bytes, a signature type tag,
and the hash that was signed. -/
structure SignatureResponse where
  signer : String
  signature : List Nat
  signature_type : Nat
  hash : List Nat
deriving DecidableEq

/-- The sort key int(r.signer, 16) from src/porter.py line 155. -/
def sigKey (r : SignatureResponse) : Nat := hexVal r.signer

/-- Models sorted(signature_responses, key=lambda r: int(r.signer, 16)) from
src/porter.py line 155. Python sorted is a stable sort, and a stable sort by a
fixed key is uniquely determined by its input, so the stable insertion sort below
agrees with it on every input. -/
def sortResponses (l : List SignatureResponse) : List SignatureResponse :=
  List.insertionSort (fun a b => sigKey a ≤ sigKey b) l

/-- Models EncryptedThresholdSignatureResponse together with its decryption: the
nucypher_core decrypt call (src/porter.py lines 145 to 150) is an external
primitive, modelled as revealing the carried plaintext response. -/
structure EncryptedSigResponse where
  plaintext : SignatureResponse
deriving DecidableEq

/-- Models the signing_results object of the Porter response (src/porter.py line
128): the error list (an absent or falsy errors entry is the empty list, matching
Python truthiness of signing_results.get) and the encrypted_signature_responses
map as an association list in gateway order. -/
structure SigningResults where
  errors : List String
  encrypted_signature_responses : List (String × EncryptedSigResponse)
deriving DecidableEq

/-- Decrypted responses as collected by the loop at src/porter.py lines 138 to 152:
responses whose ursula address has a shared secret are decrypted in arrival order,
the rest are skipped with a warning. -/
def decryptedResponses (shared_secrets : List String) (sr : SigningResults) :
    List SignatureResponse :=
  (sr.encrypted_signature_responses.filter
    (fun p => shared_secrets.contains p.1)).map (fun p => p.2.plaintext)

/-- Models the response processing part of PorterSignatureService._request_signatures
(src/porter.py lines 127 to 167): fail on a gateway-reported error list, fail on an
empty encrypted response map, decrypt the responses that have a shared secret, sort
them by numeric signer identifier, fail when nothing was decrypted, and otherwise
return the sorted responses. The configured threshold only appears in the request
payload sent to the gateway (lines 113 to 116) and is never consulted here. -/
def requestSignaturesProcess (shared_secrets : List String) (sr : SigningResults) :
    Except String (List SignatureResponse) :=
  if sr.errors ≠ [] then .error "TACo signing failed"
  else if sr.encrypted_signature_responses = [] then
    .error "No encrypted signature responses in TACo response"
  else
    let sorted := sortResponses (decryptedResponses shared_secrets sr)
    if sorted = [] then .error "No valid signature responses from TACo network"
    else .ok sorted

/-- Models PorterSignatureService._create_signed_user_operation (src/porter.py lines
169 to 179): concatenate the raw signature bytes of the given responses, in the
given order, into the combined signature of a SignedUserOperation. -/
def create_signed_user_operation (op : UserOperation)
    (signature_responses : List SignatureResponse) : SignedUserOperation :=
  { user_operation := op
    signature := (signature_responses.map (fun r => r.signature)).flatten }

/-- One signing round after the gateway response arrives: response processing
followed by combined-signature construction, as called from sign_user_operation at
src/porter.py lines 73 to 76. The threshold argument mirrors self.threshold, which
is only forwarded to the gateway inside the request body and is not used in any
local check. -/
def signRound (threshold : Nat) (shared_secrets : List String) (sr : SigningResults)
    (op : UserOperation) : Except String SignedUserOperation :=
  (requestSignaturesProcess shared_secrets sr).map (create_signed_user_operation op)

/-- Models the discord_context dictionary attached to the current thread by
DiscordInteractionHandler._set_discord_context (src/app.py lines 173 to 187);
only the fields read back in src/porter.py are kept. -/
structure DiscordContext where
  message_hex : String
  signature : String
  body : String
deriving DecidableEq

/-- External effects performed by PorterSignatureService during one signing request,
in program order: the cohort read (src/porter.py line 92 via _get_signers_info),
the per-signer shared secret derivation (line 100), the per-signer request
encryption (line 104), and the POST to the Porter gateway (line 118). -/
inductive PorterEffect
  | fetchCohort
  | deriveSharedSecret (provider : String)
  | encryptRequest (provider : String)
  | postSignRequest
deriving DecidableEq

/-- Models PorterSignatureService.sign_user_operation (src/porter.py lines 48 to 76)
at the level of external effects: the Discord context is read from the current
thread first (line 53, raising when it is absent); only then is the cohort fetched,
a shared secret derived and a request encrypted per signer, and the batch posted.
The signer list and the gateway reply sr stand for the results of those effects. -/
def sign_user_operation (discord_context : Option DiscordContext) (threshold : Nat)
    (signers : List String) (sr : SigningResults) (op : UserOperation) :
    List PorterEffect × Except String SignedUserOperation :=
  match discord_context with
  | none => ([], .error "Discord context required for Porter signatures")
  | some _ =>
    (PorterEffect.fetchCohort ::
      (signers.flatMap
        (fun s => [PorterEffect.deriveSharedSecret s, PorterEffect.encryptRequest s])
        ++ [PorterEffect.postSignRequest]),
      signRound threshold signers sr op)

/-- Models the fast tier entry of the pimlico_getUserOperationGasPrice reply as read
in src/smart_account.py lines 73 to 78; each field value stands for the already
parsed int(value, 16), and an absent dictionary key is none. -/
structure FastPrices where
  maxFeePerGas : Option Nat
  maxPriorityFeePerGas : Option Nat
deriving DecidableEq

/-- Models the pimlico_getUserOperationGasPrice reply: the whole falsy-or-absent
reply is none one level up, and the fast key may be absent. -/
structure GasPrices where
  fast : Option FastPrices
deriving DecidableEq

/-- Models the eth_estimateUserOperationGas reply as read in src/smart_account.py
lines 81 to 90; field values stand for the already parsed int(value, 16). -/
structure GasEstimates where
  callGasLimit : Option Nat
  verificationGasLimit : Option Nat
  preVerificationGas : Option Nat
deriving DecidableEq

/-- Models the gas price block of TacoSmartWalletService._optimize_gas_settings
(src/smart_account.py lines 71 to 78): when the reply is truthy and has a fast
tier, each present field overwrites the matching Operation field. -/
def apply_fast_prices (op : UserOperation) (gas_prices : Option GasPrices) :
    UserOperation :=
  match gas_prices with
  | some gp =>
    match gp.fast with
    | some fast =>
      { op with
        max_fee_per_gas := fast.maxFeePerGas.getD op.max_fee_per_gas,
        max_priority_fee_per_gas :=
          fast.maxPriorityFeePerGas.getD op.max_priority_fee_per_gas }
    | none => op
  | none => op

/-- Models the gas estimate block of TacoSmartWalletService._optimize_gas_settings
(src/smart_account.py lines 80 to 90): present fields overwrite the matching
Operation fields; the verification gas estimate gets the 50 percent buffer
int(base_gas * 1.5), which is (3 * base_gas) / 2 on integers — the double
multiplication is exact for every realistic gas value (below 2 ^ 52). -/
def apply_gas_estimates (op : UserOperation) (gas_estimates : Option GasEstimates) :
    UserOperation :=
  match gas_estimates with
  | some e =>
    { op with
      call_gas_limit := e.callGasLimit.getD op.call_gas_limit,
      verification_gas_limit :=
        match e.verificationGasLimit with
        | some v => 3 * v / 2
        | none => op.verification_gas_limit,
      pre_verification_gas := e.preVerificationGas.getD op.pre_verification_gas }
  | none => op

/-- Models TacoSmartWalletService._optimize_gas_settings (src/smart_account.py lines
68 to 92): the two oracle replies are applied in sequence, prices first. Both
replies are inputs of the model; the estimate call of the source takes the
operation as its request payload, which does not affect which fields are applied. -/
def optimize_gas_settings (op : UserOperation) (gas_prices : Option GasPrices)
    (gas_estimates : Option GasEstimates) : UserOperation :=
  apply_gas_estimates (apply_fast_prices op gas_prices) gas_estimates

/-- JSON value of one entry of the Pimlico wire dictionary: an explicit null or a
string. -/
inductive PimlicoValue
  | pnull
  | pstr (s : List Char)
deriving DecidableEq

/-- Models convert_user_operation_to_pimlico_format (src/bundler.py lines 16 to 70)
as an association list in insertion order. The signature argument carries the
signature bytes passed alongside the operation; Python None and the empty byte
string both take the falsy branch and are modelled as the empty list. The factory
and paymaster truthiness checks of the source coincide with Option presence here
because neither is ever a present-but-empty string in this repository. -/
def convert_user_operation_to_pimlico_format (op : UserOperation)
    (signature : List Nat) : List (String × PimlicoValue) :=
  [("sender", PimlicoValue.pstr op.sender),
   ("nonce", PimlicoValue.pstr (pyHex op.nonce)),
   ("callData", PimlicoValue.pstr (bytesHex0x op.call_data)),
   ("callGasLimit", PimlicoValue.pstr (pyHex op.call_gas_limit)),
   ("verificationGasLimit", PimlicoValue.pstr (pyHex op.verification_gas_limit)),
   ("preVerificationGas", PimlicoValue.pstr (pyHex op.pre_verification_gas)),
   ("maxFeePerGas", PimlicoValue.pstr (pyHex op.max_fee_per_gas)),
   ("maxPriorityFeePerGas", PimlicoValue.pstr (pyHex op.max_priority_fee_per_gas)),
   ("signature",
     if signature ≠ [] then PimlicoValue.pstr (bytesHex0x signature)
     else PimlicoValue.pstr ['0', 'x']),
   ("factory",
     match op.factory with
     | some f => PimlicoValue.pstr f
     | none => PimlicoValue.pnull),
   ("factoryData",
     if op.factory ≠ none ∧ op.factory_data ≠ [] then
       PimlicoValue.pstr (bytesHex0x op.factory_data)
     else PimlicoValue.pnull)] ++
  (match op.paymaster with
   | some p =>
     [("paymaster", PimlicoValue.pstr p),
      ("paymasterVerificationGasLimit",
        PimlicoValue.pstr (pyHex op.paymaster_verification_gas_limit)),
      ("paymasterPostOpGasLimit",
        PimlicoValue.pstr (pyHex op.paymaster_post_op_gas_limit)),
      ("paymasterData",
        if op.paymaster_data ≠ [] then PimlicoValue.pstr (bytesHex0x op.paymaster_data)
        else PimlicoValue.pstr ['0', 'x'])]
   | none =>
     [("paymaster", PimlicoValue.pnull),
      ("paymasterVerificationGasLimit", PimlicoValue.pnull),
      ("paymasterPostOpGasLimit", PimlicoValue.pnull),
      ("paymasterData", PimlicoValue.pnull)])

/-- Models the SignedUserOperation branch of the converter (src/bundler.py lines 22
to 24): the wrapped operation is encoded with the wrapper signature. -/
def convert_signed_user_operation (s : SignedUserOperation) :
    List (String × PimlicoValue) :=
  convert_user_operation_to_pimlico_format s.user_operation s.signature

/-- Models the member error object of a JSON-RPC error reply; the message entry is
read with error.get at src/bundler.py line 135 and only logged. -/
structure RpcError where
  message : Option String
deriving DecidableEq

/-- Models the JSON body of a bundler reply: presence of the result and error keys. -/
structure RpcBody where
  result : Option String
  error : Option RpcError
deriving DecidableEq

/-- Outcome of the HTTP POST in BundlerClient._make_bundler_request: a reply with a
status code and JSON body, or a raised transport exception. -/
inductive HttpOutcome
  | ok (status : Nat) (body : RpcBody)
  | exn (msg : String)
deriving DecidableEq

/-- Models the result dictionary of BundlerClient.send_user_operation
(src/bundler.py lines 98 to 110): the success flag, the operation hash when
present, the error message when present, and the status string. -/
structure SendResult where
  success : Bool
  user_operation_hash : Option String
  error : Option String
  status : String
deriving DecidableEq

/-- The failure dictionary returned by BundlerClient.send_user_operation at
src/bundler.py lines 106 to 110. -/
def sendFailureResult : SendResult := ⟨false, none, some "Failed to send UserOperation", "failed"⟩

/-- Models BundlerClient._make_bundler_request (src/bundler.py lines 112 to 143):
on status 200 the result entry is returned when present; a JSON-RPC error is
logged and yields None; a non-200 status is logged and yields None; a raised
request exception is caught, logged, and yields None. -/
def make_bundler_request (resp : HttpOutcome) : Option String :=
  match resp with
  | .exn _ => none
  | .ok status body =>
    if status = 200 then
      match body.result with
      | some r => some r
      | none =>
        match body.error with
        | some _ => none
        | none => none
    else none

/-- Models BundlerClient.send_user_operation (src/bundler.py lines 90 to 110): a
truthy result from the request helper produces the success dictionary, anything
else the failure dictionary (an empty result string is falsy in Python). -/
def send_user_operation (resp : HttpOutcome) : SendResult :=
  match make_bundler_request resp with
  | some r => if r = "" then sendFailureResult else ⟨true, some r, none, "submitted"⟩
  | none => sendFailureResult

/-- Sorting returns a permutation of its input. -/
theorem sortResponses_perm (l : List SignatureResponse) : (sortResponses l).Perm l :=
  List.perm_insertionSort _ l

/-- Sorting yields a list whose signer keys are ascending. -/
theorem sortResponses_sorted (l : List SignatureResponse) :
    List.Pairwise (fun a b => sigKey a ≤ sigKey b) (sortResponses l) := by
  haveI : IsTotal SignatureResponse (fun a b => sigKey a ≤ sigKey b) :=
    ⟨fun a b => Nat.le_total (sigKey a) (sigKey b)⟩
  haveI : IsTrans SignatureResponse (fun a b => sigKey a ≤ sigKey b) :=
    ⟨fun _ _ _ h1 h2 => Nat.le_trans h1 h2⟩
  exact List.sorted_insertionSort _ l

/-- Sorting produces the empty list exactly on the empty list. -/
theorem sortResponses_nil_iff (l : List SignatureResponse) :
    sortResponses l = [] ↔ l = [] := by
  constructor
  · intro h
    have hlen := (sortResponses_perm l).length_eq
    rw [h] at hlen
    exact List.length_eq_zero.mp hlen.symm
  · intro h
    subst h
    rfl

/-- On response lists with pairwise distinct numeric signer keys, the sorted result
depends only on the multiset of responses, not on their arrival order. -/
theorem sortResponses_eq_of_perm (l l' : List SignatureResponse)
    (hd : l.Pairwise (fun a b => sigKey a ≠ sigKey b)) (hp : l.Perm l') :
    sortResponses l' = sortResponses l := by
  haveI : IsAntisymm SignatureResponse (fun a b => sigKey a < sigKey b) :=
    ⟨fun a b h1 h2 => absurd (Nat.lt_trans h1 h2) (Nat.lt_irrefl _)⟩
  have hsym : ∀ {x y : SignatureResponse}, sigKey x ≠ sigKey y → sigKey y ≠ sigKey x :=
    fun h e => h e.symm
  have hd1 : (sortResponses l).Pairwise (fun a b => sigKey a ≠ sigKey b) :=
    ((sortResponses_perm l).pairwise_iff hsym).mpr hd
  have hdl : l'.Pairwise (fun a b => sigKey a ≠ sigKey b) :=
    (hp.pairwise_iff hsym).mp hd
  have hd2 : (sortResponses l').Pairwise (fun a b => sigKey a ≠ sigKey b) :=
    ((sortResponses_perm l').pairwise_iff hsym).mpr hdl
  have s1 : List.Sorted (fun a b => sigKey a < sigKey b) (sortResponses l) :=
    ((sortResponses_sorted l).and hd1).imp (fun h => Nat.lt_of_le_of_ne h.1 h.2)
  have s2 : List.Sorted (fun a b => sigKey a < sigKey b) (sortResponses l') :=
    ((sortResponses_sorted l').and hd2).imp (fun h => Nat.lt_of_le_of_ne h.1 h.2)
  have hp2 : (sortResponses l').Perm (sortResponses l) :=
    ((sortResponses_perm l').trans hp.symm).trans (sortResponses_perm l).symm
  exact List.eq_of_perm_of_sorted hp2 s2 s1

/-- Length of a concatenation of equal-length byte strings. -/
theorem flatten_length_const (L : Nat) :
    ∀ l : List (List Nat), (∀ x ∈ l, x.length = L) → l.flatten.length = l.length * L := by
  intro l
  induction l with
  | nil => intro _; simp
  | cons a t ih =>
    intro h
    have ha := h a (List.mem_cons_self a t)
    have ht := ih (fun x hx => h x (List.mem_cons_of_mem a hx))
    simp only [List.flatten_cons, List.length_append, List.length_cons, ha, ht]
    ring

/-- Sample operation used to evaluate the model at concrete closed inputs. -/
def sampleOp : UserOperation :=
  { sender := "0xBF151420A84A6Bb7b1213d8269a5F1fe43FC3276".toList
    nonce := 0
    factory := none
    factory_data := []
    call_data := []
    call_gas_limit := 300000
    verification_gas_limit := 1000000
    pre_verification_gas := 60000
    max_fee_per_gas := 1100000
    max_priority_fee_per_gas := 1100000
    paymaster := none
    paymaster_verification_gas_limit := 0
    paymaster_post_op_gas_limit := 0
    paymaster_data := []
    signature := [] }

/-- Gateway reply carrying exactly one decryptable response, used with threshold 2. -/
def oneResponseResults : SigningResults :=
  ⟨[], [("provider1", ⟨⟨"0x05", [9, 9], 0, []⟩⟩)]⟩

/-- C1 counterexample: with configured threshold 2 and exactly one successfully
decrypted partial signature response — a count that is nonzero and strictly below
the threshold — the round does not fail: no quorum comparison exists in the code
(and no QuorumNotMetError class does either), and a SignedOperation is produced. -/
theorem c1_counterexample :
    (decryptedResponses ["provider1"] oneResponseResults).length = 1 ∧ 1 < 2 ∧
    signRound 2 ["provider1"] oneResponseResults sampleOp
      = Except.ok ⟨sampleOp, [9, 9]⟩ := by
  refine ⟨rfl, by decide, rfl⟩

/-- C1 amended: aggregation performs no local quorum check. Whenever the gateway
reports no errors and a nonempty encrypted response map, a round with at least one
decrypted response succeeds and produces a SignedOperation combining whatever
decrypted, however its count compares to the configured threshold; only zero
decrypted responses abort the round, with a generic exception rather than a typed
QuorumNotMetError. -/
theorem c1_no_quorum_check (threshold : Nat) (shared_secrets : List String)
    (sr : SigningResults) (op : UserOperation) (he : sr.errors = [])
    (hes : sr.encrypted_signature_responses ≠ []) :
    (decryptedResponses shared_secrets sr ≠ [] →
      signRound threshold shared_secrets sr op
        = Except.ok (create_signed_user_operation op
            (sortResponses (decryptedResponses shared_secrets sr)))) ∧
    (decryptedResponses shared_secrets sr = [] →
      signRound threshold shared_secrets sr op
        = Except.error "No valid signature responses from TACo network") := by
  constructor
  · intro hne
    have hs : sortResponses (decryptedResponses shared_secrets sr) ≠ [] := by
      intro h0
      exact hne ((sortResponses_nil_iff _).mp h0)
    simp [signRound, requestSignaturesProcess, he, hes, hs, Except.map]
  · intro hnil
    have hs : sortResponses (decryptedResponses shared_secrets sr) = [] :=
      (sortResponses_nil_iff _).mpr hnil
    simp [signRound, requestSignaturesProcess, he, hes, hs, Except.map]

/-- Witness for c1_no_quorum_check at a concrete reply with one decrypted response. -/
theorem c1_no_quorum_check_witness :
    signRound 7 ["provider1"] oneResponseResults sampleOp
      = Except.ok (create_signed_user_operation sampleOp
          (sortResponses (decryptedResponses ["provider1"] oneResponseResults))) :=
  (c1_no_quorum_check 7 ["provider1"] oneResponseResults sampleOp rfl
    (by decide)).1 (by decide)

/-- Gateway reply carrying three decryptable responses of two bytes each. -/
def threeResponseResults : SigningResults :=
  ⟨[], [("p1", ⟨⟨"0x03", [1, 2], 0, []⟩⟩), ("p2", ⟨⟨"0x01", [3, 4], 0, []⟩⟩),
        ("p3", ⟨⟨"0x02", [5, 6], 0, []⟩⟩)]⟩

/-- C2 counterexample: with configured threshold 2 and three decrypted responses of
two signature bytes each, the emitted SignedOperation concatenates all three
partial signatures — sorted but not truncated — so its combined signature has
length 6, not threshold times per-signature length, which is 4. -/
theorem c2_counterexample :
    signRound 2 ["p1", "p2", "p3"] threeResponseResults sampleOp
      = Except.ok ⟨sampleOp, [3, 4, 5, 6, 1, 2]⟩ ∧ (6 : Nat) ≠ 2 * 2 := by
  refine ⟨rfl, by decide⟩

/-- C2 amended: the combined signature of an emitted SignedOperation is the
concatenation of the raw signature bytes of all decrypted partial signature
responses, with no truncation to the configured threshold, so with N decrypted
responses of a common per-signature length L its byte length is N times L, whether
N is below, at, or above the threshold. -/
theorem c2_combined_length (op : UserOperation) (rs : List SignatureResponse)
    (L : Nat) (h : ∀ r ∈ rs, r.signature.length = L) :
    (create_signed_user_operation op (sortResponses rs)).signature.length
      = rs.length * L := by
  have hperm := sortResponses_perm rs
  have hlen : (sortResponses rs).length = rs.length := hperm.length_eq
  have hmem : ∀ x ∈ (sortResponses rs).map (fun r => r.signature), x.length = L := by
    intro x hx
    obtain ⟨r, hr, rfl⟩ := List.mem_map.mp hx
    exact h r (hperm.mem_iff.mp hr)
  have := flatten_length_const L ((sortResponses rs).map (fun r => r.signature)) hmem
  simpa [create_signed_user_operation, List.length_map, hlen] using this

/-- Witness for c2_combined_length at two concrete three-byte responses. -/
theorem c2_combined_length_witness :
    (create_signed_user_operation sampleOp
        (sortResponses [⟨"0x02", [7, 8, 9], 0, []⟩, ⟨"0x01", [4, 5, 6], 0, []⟩])).signature.length
      = 2 * 3 :=
  c2_combined_length sampleOp _ 3 (by decide)

/-- C3: the decrypted partial signature responses are concatenated in ascending
order of the numeric value of the signer identifier, and on identifier-distinct
response sets the processed round — hence the combined signature — is invariant
under every permutation of the gateway arrival order, so the result is
deterministic in the response multiset. -/
theorem c3_ordering_and_determinism (threshold : Nat) (op : UserOperation)
    (shared_secrets : List String) (errs : List String)
    (es es' : List (String × EncryptedSigResponse)) (hp : es.Perm es')
    (hd : (decryptedResponses shared_secrets ⟨errs, es⟩).Pairwise
      (fun a b => sigKey a ≠ sigKey b)) :
    List.Pairwise (fun a b => sigKey a ≤ sigKey b)
      (sortResponses (decryptedResponses shared_secrets ⟨errs, es⟩)) ∧
    signRound threshold shared_secrets ⟨errs, es'⟩ op
      = signRound threshold shared_secrets ⟨errs, es⟩ op := by
  have hdp : (decryptedResponses shared_secrets ⟨errs, es⟩).Perm
      (decryptedResponses shared_secrets ⟨errs, es'⟩) :=
    List.Perm.map _ (List.Perm.filter _ hp)
  refine ⟨sortResponses_sorted _, ?_⟩
  have hsort : sortResponses (decryptedResponses shared_secrets ⟨errs, es'⟩)
      = sortResponses (decryptedResponses shared_secrets ⟨errs, es⟩) :=
    sortResponses_eq_of_perm _ _ hd hdp
  by_cases he : errs = []
  · subst he
    by_cases hes : es = []
    · have hes' : es' = [] := by
        have hlen := hp.length_eq
        rw [hes] at hlen
        exact List.length_eq_zero.mp hlen.symm
      subst hes
      subst hes'
      rfl
    · have hes' : es' ≠ [] := by
        intro h0
        apply hes
        have hlen := hp.length_eq
        rw [h0] at hlen
        exact List.length_eq_zero.mp hlen
      simp [signRound, requestSignaturesProcess, hes, hes', hsort]
  · simp [signRound, requestSignaturesProcess, he]

/-- Witness for c3_ordering_and_determinism: swapping the arrival order of two
identifier-distinct responses leaves the round result unchanged. -/
theorem c3_ordering_and_determinism_witness :
    List.Pairwise (fun a b => sigKey a ≤ sigKey b)
      (sortResponses (decryptedResponses ["p1", "p2"]
        ⟨[], [("p1", ⟨⟨"0x02", [170], 0, []⟩⟩), ("p2", ⟨⟨"0x01", [187], 0, []⟩⟩)]⟩)) ∧
    signRound 2 ["p1", "p2"]
        ⟨[], [("p2", ⟨⟨"0x01", [187], 0, []⟩⟩), ("p1", ⟨⟨"0x02", [170], 0, []⟩⟩)]⟩ sampleOp
      = signRound 2 ["p1", "p2"]
        ⟨[], [("p1", ⟨⟨"0x02", [170], 0, []⟩⟩), ("p2", ⟨⟨"0x01", [187], 0, []⟩⟩)]⟩ sampleOp :=
  c3_ordering_and_determinism 2 sampleOp ["p1", "p2"] []
    [("p1", ⟨⟨"0x02", [170], 0, []⟩⟩), ("p2", ⟨⟨"0x01", [187], 0, []⟩⟩)]
    [("p2", ⟨⟨"0x01", [187], 0, []⟩⟩), ("p1", ⟨⟨"0x02", [170], 0, []⟩⟩)]
    (List.Perm.swap _ _ _) (by decide)

/-- C10: a sign_user_operation call on a thread whose thread object carries no
discord_context attribute fails with the exception raised in _get_discord_context
before any external effect: the effect trace is empty, so no cohort fetch, no
shared secret derivation, no request encryption, and no gateway request happens. -/
theorem c10_missing_context_blocks_all_effects (threshold : Nat)
    (signers : List String) (sr : SigningResults) (op : UserOperation) :
    sign_user_operation none threshold signers sr op
      = ([], Except.error "Discord context required for Porter signatures") := rfl

/-- Concrete stand-in for the external keccak256 parameter, used only to evaluate
the model at closed inputs; no fact proved below depends on its output values. -/
def kcZero : List Nat → List Nat := fun _ => List.replicate 32 0

/-- C4: the byte string that compute_smart_account_address hashes diverges from the
CREATE2 preimage stated by the spec and by the docstring of the function itself,
for every hash function and every candidate init-code hash: the code hashes
factory bytes, salt, keccak(salt) — its first byte is 0x94, the first factory
address byte — while the documented preimage starts with the 0xff marker byte and
ends with a fixed init-code hash. Instantiated at identifier 0; the first byte
does not depend on the identifier. -/
theorem c4_create2_preimage_divergence (kc : List Nat → List Nat) (initCodeHash : List Nat) :
    (codeCombined kc 0 factoryAddressBytes).head? = some 0x94 ∧
    (specCreate2Preimage factoryAddressBytes (salt32 0) initCodeHash).head? = some 0xff ∧
    codeCombined kc 0 factoryAddressBytes
      ≠ specCreate2Preimage factoryAddressBytes (salt32 0) initCodeHash := by
  have hfb : factoryAddressBytes = 0x94 :: factoryAddressBytes.tail := by decide
  have h1 : (codeCombined kc 0 factoryAddressBytes).head? = some 0x94 := by
    rw [codeCombined, hfb]
    rfl
  have h2 : (specCreate2Preimage factoryAddressBytes (salt32 0) initCodeHash).head?
      = some 0xff := rfl
  refine ⟨h1, h2, fun h => ?_⟩
  rw [h] at h1
  have hv : (0x94 : Nat) = 0xff := Option.some.inj (h1.symm.trans h2)
  exact absurd hv (by decide)

/-- Sample 20 byte recipient address used at closed inputs. -/
def sampleTo : List Nat := List.replicate 20 170

/-- C5 counterexample: two runs of the operation builder with identical counterparty
address, amount, nonce and user identifier, differing only in the blockchain state
it reads — no code versus some code deployed at the smart-account address —
produce different Operations, because the builder sets the deployment factory
fields from that read. -/
theorem c5_counterexample :
    create_eth_transfer_user_operation kcZero [] sampleOp.sender sampleTo 5 0 (some 7)
      ≠ create_eth_transfer_user_operation kcZero [96] sampleOp.sender sampleTo 5 0 (some 7) := by
  intro h
  have hf := congrArg UserOperation.factory h
  simp [create_eth_transfer_user_operation] at hf

/-- C5 amended: the operation builder reads the chain state (the deployed code at
the smart-account address, via web3.eth.get_code). When no user identifier is
supplied the resulting Operation is independent of that read; when a user
identifier is supplied, two runs that differ in whether code is deployed produce
different Operations: the run without deployed code sets the deployment factory
while the other leaves it empty. -/
theorem c5_chain_state_dependence (kc : List Nat → List Nat) (code code' : List Nat)
    (sa : List Char) (to_address : List Nat) (amount_wei nonce uid : Nat) :
    create_eth_transfer_user_operation kc code sa to_address amount_wei nonce none
      = create_eth_transfer_user_operation kc code' sa to_address amount_wei nonce none ∧
    (code.length = 0 → code'.length ≠ 0 →
      (create_eth_transfer_user_operation kc code sa to_address amount_wei nonce
          (some uid)).factory = some SMART_ACCOUNT_FACTORY.toList ∧
      (create_eth_transfer_user_operation kc code' sa to_address amount_wei nonce
          (some uid)).factory = none) := by
  constructor
  · by_cases h1 : code.length = 0 <;> by_cases h2 : code'.length = 0 <;>
      simp [create_eth_transfer_user_operation, h1, h2]
  · intro h h'
    constructor
    · simp [create_eth_transfer_user_operation, h]
    · simp [create_eth_transfer_user_operation, h']

/-- Witness for c5_chain_state_dependence at empty versus one-byte deployed code. -/
theorem c5_chain_state_dependence_witness :
    (create_eth_transfer_user_operation kcZero [] sampleOp.sender sampleTo 5 0
        (some 7)).factory = some SMART_ACCOUNT_FACTORY.toList ∧
    (create_eth_transfer_user_operation kcZero [96] sampleOp.sender sampleTo 5 0
        (some 7)).factory = none :=
  (c5_chain_state_dependence kcZero [] [96] sampleOp.sender sampleTo 5 0 7).2
    rfl (by decide)

/-- C6 counterexample: when the relay answers status 200 with a JSON-RPC error
whose message is boom and no result, send_user_operation does not raise any typed
BundlerRejectionError — no such class exists in the code — and returns the generic
failure dictionary: the relay message is logged inside _make_bundler_request but
dropped from the value the caller receives. -/
theorem c6_counterexample :
    send_user_operation (HttpOutcome.ok 200 ⟨none, some ⟨some "boom"⟩⟩)
      = sendFailureResult ∧
    sendFailureResult.error = some "Failed to send UserOperation" ∧
    sendFailureResult.error ≠ some "boom" ∧
    sendFailureResult.success = false := by
  refine ⟨rfl, rfl, by decide, rfl⟩

/-- C6 amended: every relay failure — a transport exception, a non-200 status, or a
JSON-RPC error reply (which carries no result member) — makes the request helper
yield None and send_user_operation return the fixed failure dictionary with
success false, status failed, and the generic message Failed to send
UserOperation; the relay message is only logged, never returned. Conversely a
success result is returned only when the helper produced a truthy result string,
so the caller never sees success on a rejected submission. -/
theorem c6_rejection_swallowed :
    (∀ msg : String, send_user_operation (HttpOutcome.exn msg) = sendFailureResult) ∧
    (∀ (status : Nat) (body : RpcBody), status ≠ 200 ∨ body.result = none →
      make_bundler_request (HttpOutcome.ok status body) = none ∧
      send_user_operation (HttpOutcome.ok status body) = sendFailureResult) ∧
    (∀ resp : HttpOutcome, (send_user_operation resp).success = true →
      ∃ r : String, make_bundler_request resp = some r ∧ r ≠ "" ∧
        send_user_operation resp = ⟨true, some r, none, "submitted"⟩) := by
  refine ⟨fun msg => rfl, ?_, ?_⟩
  · intro status body h
    have hm : make_bundler_request (HttpOutcome.ok status body) = none := by
      rcases h with h | h
      · simp [make_bundler_request, h]
      · rcases body with ⟨_ | r, e⟩
        · by_cases hs : status = 200
          · subst hs
            rcases e with _ | err <;> simp [make_bundler_request]
          · simp [make_bundler_request, hs]
        · simp at h
    exact ⟨hm, by simp [send_user_operation, hm]⟩
  · intro resp h
    rcases hr : make_bundler_request resp with _ | r
    · simp [send_user_operation, hr, sendFailureResult] at h
    · by_cases he : r = ""
      · subst he
        simp [send_user_operation, hr, sendFailureResult] at h
      · exact ⟨r, rfl, he, by simp [send_user_operation, hr, he]⟩

/-- Witness for c6_rejection_swallowed at a concrete JSON-RPC error reply and a
concrete HTTP 500 reply. -/
theorem c6_rejection_swallowed_witness :
    make_bundler_request (HttpOutcome.ok 500 ⟨some "h", none⟩) = none ∧
    send_user_operation (HttpOutcome.ok 200 ⟨none, some ⟨some "boom"⟩⟩)
      = sendFailureResult :=
  ⟨(c6_rejection_swallowed.2.1 500 ⟨some "h", none⟩ (Or.inl (by decide))).1,
   (c6_rejection_swallowed.2.1 200 ⟨none, some ⟨some "boom"⟩⟩ (Or.inr rfl)).2⟩

/-- C7: whenever the gas-estimate reply contains a verification gas estimate v, the
optimizer sets the verification gas limit of the Operation to int(v * 1.5), the
integer three halves of v, regardless of the gas price reply and of every other
field. -/
theorem c7_verification_gas_buffer (op : UserOperation) (gas_prices : Option GasPrices)
    (e : GasEstimates) (v : Nat) (h : e.verificationGasLimit = some v) :
    (optimize_gas_settings op gas_prices (some e)).verification_gas_limit
      = 3 * v / 2 := by
  rcases gas_prices with _ | gp
  · simp [optimize_gas_settings, apply_fast_prices, apply_gas_estimates, h]
  · rcases gp with ⟨_ | fast⟩ <;>
      simp [optimize_gas_settings, apply_fast_prices, apply_gas_estimates, h]

/-- Witness for c7_verification_gas_buffer: an estimate of 100000 yields an applied
verification gas limit of exactly 150000. -/
theorem c7_verification_gas_buffer_witness :
    (optimize_gas_settings sampleOp none (some ⟨none, some 100000, none⟩)).verification_gas_limit
      = 150000 := by
  have h := c7_verification_gas_buffer sampleOp none ⟨none, some 100000, none⟩ 100000 rfl
  rw [h]

/-- C8: the gas optimizer is frame-preserving. Every Operation field other than the
five gas and fee fields is left unchanged unconditionally; each of the five gas
and fee fields keeps its prior value whenever its own response field, its whole
fast tier, or its whole response is absent. -/
theorem c8_gas_optimizer_frame (op : UserOperation) (gas_prices : Option GasPrices)
    (gas_estimates : Option GasEstimates) :
    ((optimize_gas_settings op gas_prices gas_estimates).sender = op.sender ∧
     (optimize_gas_settings op gas_prices gas_estimates).nonce = op.nonce ∧
     (optimize_gas_settings op gas_prices gas_estimates).factory = op.factory ∧
     (optimize_gas_settings op gas_prices gas_estimates).factory_data = op.factory_data ∧
     (optimize_gas_settings op gas_prices gas_estimates).call_data = op.call_data ∧
     (optimize_gas_settings op gas_prices gas_estimates).paymaster = op.paymaster ∧
     (optimize_gas_settings op gas_prices gas_estimates).paymaster_verification_gas_limit
       = op.paymaster_verification_gas_limit ∧
     (optimize_gas_settings op gas_prices gas_estimates).paymaster_post_op_gas_limit
       = op.paymaster_post_op_gas_limit ∧
     (optimize_gas_settings op gas_prices gas_estimates).paymaster_data
       = op.paymaster_data ∧
     (optimize_gas_settings op gas_prices gas_estimates).signature = op.signature) ∧
    (gas_prices.bind GasPrices.fast = none →
      (optimize_gas_settings op gas_prices gas_estimates).max_fee_per_gas
          = op.max_fee_per_gas ∧
      (optimize_gas_settings op gas_prices gas_estimates).max_priority_fee_per_gas
          = op.max_priority_fee_per_gas) ∧
    (∀ fast : FastPrices, gas_prices.bind GasPrices.fast = some fast →
      (fast.maxFeePerGas = none →
        (optimize_gas_settings op gas_prices gas_estimates).max_fee_per_gas
          = op.max_fee_per_gas) ∧
      (fast.maxPriorityFeePerGas = none →
        (optimize_gas_settings op gas_prices gas_estimates).max_priority_fee_per_gas
          = op.max_priority_fee_per_gas)) ∧
    (gas_estimates = none →
      (optimize_gas_settings op gas_prices gas_estimates).call_gas_limit
          = op.call_gas_limit ∧
      (optimize_gas_settings op gas_prices gas_estimates).verification_gas_limit
          = op.verification_gas_limit ∧
      (optimize_gas_settings op gas_prices gas_estimates).pre_verification_gas
          = op.pre_verification_gas) ∧
    (∀ e : GasEstimates, gas_estimates = some e →
      (e.callGasLimit = none →
        (optimize_gas_settings op gas_prices gas_estimates).call_gas_limit
          = op.call_gas_limit) ∧
      (e.verificationGasLimit = none →
        (optimize_gas_settings op gas_prices gas_estimates).verification_gas_limit
          = op.verification_gas_limit) ∧
      (e.preVerificationGas = none →
        (optimize_gas_settings op gas_prices gas_estimates).pre_verification_gas
          = op.pre_verification_gas)) := by
  rcases gas_prices with _ | ⟨_ | f⟩ <;> rcases gas_estimates with _ | ⟨cg, vg, pv⟩
  case none.none =>
    exact ⟨⟨rfl, rfl, rfl, rfl, rfl, rfl, rfl, rfl, rfl, rfl⟩,
      fun _ => ⟨rfl, rfl⟩,
      fun fast h => Option.noConfusion h,
      fun _ => ⟨rfl, rfl, rfl⟩,
      fun e h => Option.noConfusion h⟩
  case none.some.mk =>
    refine ⟨⟨rfl, rfl, rfl, rfl, rfl, rfl, rfl, rfl, rfl, rfl⟩,
      fun _ => ⟨rfl, rfl⟩,
      fun fast h => Option.noConfusion h,
      fun h => Option.noConfusion h,
      fun e h => ?_⟩
    injection h with h1
    subst h1
    refine ⟨fun hc => ?_, fun hv => ?_, fun hp => ?_⟩ <;>
      simp_all [optimize_gas_settings, apply_fast_prices, apply_gas_estimates]
  case some.mk.none.none =>
    exact ⟨⟨rfl, rfl, rfl, rfl, rfl, rfl, rfl, rfl, rfl, rfl⟩,
      fun _ => ⟨rfl, rfl⟩,
      fun fast h => Option.noConfusion h,
      fun _ => ⟨rfl, rfl, rfl⟩,
      fun e h => Option.noConfusion h⟩
  case some.mk.none.some.mk =>
    refine ⟨⟨rfl, rfl, rfl, rfl, rfl, rfl, rfl, rfl, rfl, rfl⟩,
      fun _ => ⟨rfl, rfl⟩,
      fun fast h => Option.noConfusion h,
      fun h => Option.noConfusion h,
      fun e h => ?_⟩
    injection h with h1
    subst h1
    refine ⟨fun hc => ?_, fun hv => ?_, fun hp => ?_⟩ <;>
      simp_all [optimize_gas_settings, apply_fast_prices, apply_gas_estimates]
  case some.mk.some.none =>
    refine ⟨⟨rfl, rfl, rfl, rfl, rfl, rfl, rfl, rfl, rfl, rfl⟩,
      fun h => absurd h (Option.some_ne_none f),
      fun fast h => ?_,
      fun _ => ⟨rfl, rfl, rfl⟩,
      fun e h => Option.noConfusion h⟩
    injection h with h1
    subst h1
    refine ⟨fun hmf => ?_, fun hmp => ?_⟩ <;>
      simp_all [optimize_gas_settings, apply_fast_prices, apply_gas_estimates]
  case some.mk.some.some.mk =>
    refine ⟨⟨rfl, rfl, rfl, rfl, rfl, rfl, rfl, rfl, rfl, rfl⟩,
      fun h => absurd h (Option.some_ne_none f),
      fun fast h => ?_,
      fun h => Option.noConfusion h,
      fun e h => ?_⟩
    · injection h with h1
      subst h1
      refine ⟨fun hmf => ?_, fun hmp => ?_⟩ <;>
        simp_all [optimize_gas_settings, apply_fast_prices, apply_gas_estimates]
    · injection h with h1
      subst h1
      refine ⟨fun hc => ?_, fun hv => ?_, fun hp => ?_⟩ <;>
        simp_all [optimize_gas_settings, apply_fast_prices, apply_gas_estimates]

/-- Witness for c8_gas_optimizer_frame: with both oracle replies absent every field
keeps its prior value, and a present estimate reply missing its call gas field
leaves the call gas limit unchanged. -/
theorem c8_gas_optimizer_frame_witness :
    (optimize_gas_settings sampleOp none none).sender = sampleOp.sender ∧
    (optimize_gas_settings sampleOp none none).max_fee_per_gas
      = sampleOp.max_fee_per_gas ∧
    (optimize_gas_settings sampleOp none (some ⟨none, some 100000, none⟩)).call_gas_limit
      = sampleOp.call_gas_limit := by
  have h1 := c8_gas_optimizer_frame sampleOp none none
  have h2 := c8_gas_optimizer_frame sampleOp none (some ⟨none, some 100000, none⟩)
  exact ⟨h1.1.1, (h1.2.1 rfl).1, ((h2.2.2.2.2 ⟨none, some 100000, none⟩ rfl).1 rfl)⟩

/-- A wire value in the lowercase hexadecimal string format of the Pimlico schema:
the characters 0x followed by lowercase hexadecimal digits only. -/
def isLowerHex0x (s : List Char) : Prop :=
  s.take 2 = ['0', 'x'] ∧ ∀ c ∈ s.drop 2, c ∈ hexAlphabet

/-- Every digit character below 16 is in the lowercase hexadecimal alphabet. -/
theorem pyHexDigitChar_mem (d : Nat) (h : d < 16) : pyHexDigitChar d ∈ hexAlphabet := by
  interval_cases d <;> decide

/-- Every character produced by the fuel-based digit expansion is a lowercase
hexadecimal digit. -/
theorem pyHexDigitsAux_mem (fuel : Nat) :
    ∀ n, ∀ c ∈ pyHexDigitsAux fuel n, c ∈ hexAlphabet := by
  induction fuel with
  | zero =>
    intro n c hc
    simp [pyHexDigitsAux] at hc
  | succ fuel ih =>
    intro n c hc
    by_cases hn : n = 0
    · simp [pyHexDigitsAux, hn] at hc
    · rw [pyHexDigitsAux] at hc
      simp only [hn, if_false, List.mem_append, List.mem_singleton] at hc
      rcases hc with hc | hc
      · exact ih _ c hc
      · subst hc
        exact pyHexDigitChar_mem _ (Nat.mod_lt _ (by decide))

/-- Python hex(n) is a lowercase 0x hexadecimal string. -/
theorem pyHex_isLowerHex0x (n : Nat) : isLowerHex0x (pyHex n) := by
  refine ⟨rfl, ?_⟩
  intro c hc
  have hc2 : c ∈ pyHexDigits n := hc
  rw [pyHexDigits] at hc2
  by_cases hn : n = 0
  · simp only [hn, if_true] at hc2
    simp at hc2
    subst hc2
    decide
  · simp only [hn, if_false] at hc2
    exact pyHexDigitsAux_mem n n c hc2

/-- Every character of a rendered byte string is a lowercase hexadecimal digit. -/
theorem bytesHexDigits_mem (l : List Nat) : ∀ c ∈ bytesHexDigits l, c ∈ hexAlphabet := by
  induction l with
  | nil =>
    intro c hc
    simp [bytesHexDigits] at hc
  | cons b t ih =>
    intro c hc
    rw [bytesHexDigits] at hc
    rcases hc with _ | ⟨_, hc⟩
    · exact pyHexDigitChar_mem _ (Nat.mod_lt _ (by decide))
    · rcases hc with _ | ⟨_, hc⟩
      · exact pyHexDigitChar_mem _ (Nat.mod_lt _ (by decide))
      · exact ih c hc

/-- The 0x rendering of any byte string is a lowercase 0x hexadecimal string. -/
theorem bytesHex0x_isLowerHex0x (l : List Nat) : isLowerHex0x (bytesHex0x l) :=
  ⟨rfl, fun c hc => bytesHexDigits_mem l c hc⟩

/-- Operation with a deployment factory present but empty factory payload bytes, and
a paymaster present, used to exercise the factory-and-data truthiness check of the
converter. -/
def c9Op : UserOperation :=
  { sampleOp with
    factory := some SMART_ACCOUNT_FACTORY.toList
    factory_data := []
    paymaster := some SMART_ACCOUNT_FACTORY.toList }

/-- C9 counterexample: for an Operation whose factory and paymaster are both
present but whose factory payload bytes are empty, the converter emits the
factoryData key as an explicit null — not as any 0x-prefixed hexadecimal string —
because the source guards that entry with the conjunction factory and
op.factory_data, and empty bytes are falsy. -/
theorem c9_counterexample :
    c9Op.factory = some SMART_ACCOUNT_FACTORY.toList ∧
    c9Op.paymaster ≠ none ∧
    (convert_user_operation_to_pimlico_format c9Op [1, 2]).lookup "factoryData"
      = some PimlicoValue.pnull ∧
    ∀ s : List Char,
      (some PimlicoValue.pnull : Option PimlicoValue) ≠ some (PimlicoValue.pstr s) := by
  refine ⟨rfl, by decide, rfl, ?_⟩
  intro s h
  simp at h

/-- C9 amended: an Operation with no deployment factory and no paymaster is encoded
with the factory, factoryData, paymaster, paymasterVerificationGasLimit,
paymasterPostOpGasLimit and paymasterData keys present and explicitly null, never
omitted; an Operation with factory, nonempty factory payload bytes, and paymaster
present is encoded with every integer gas and fee field and every byte-array field
as a lowercase 0x-prefixed hexadecimal string. When the factory is present but its
payload bytes are empty, the factoryData entry is null instead. -/
theorem c9_wire_format (op : UserOperation) (signature : List Nat) :
    (op.factory = none → op.paymaster = none →
      (convert_user_operation_to_pimlico_format op signature).lookup "factory"
          = some PimlicoValue.pnull ∧
      (convert_user_operation_to_pimlico_format op signature).lookup "factoryData"
          = some PimlicoValue.pnull ∧
      (convert_user_operation_to_pimlico_format op signature).lookup "paymaster"
          = some PimlicoValue.pnull ∧
      (convert_user_operation_to_pimlico_format op signature).lookup "paymasterVerificationGasLimit"
          = some PimlicoValue.pnull ∧
      (convert_user_operation_to_pimlico_format op signature).lookup "paymasterPostOpGasLimit"
          = some PimlicoValue.pnull ∧
      (convert_user_operation_to_pimlico_format op signature).lookup "paymasterData"
          = some PimlicoValue.pnull) ∧
    (op.factory ≠ none → op.factory_data ≠ [] → op.paymaster ≠ none →
      ∀ k ∈ ["nonce", "callData", "callGasLimit", "verificationGasLimit",
             "preVerificationGas", "maxFeePerGas", "maxPriorityFeePerGas",
             "signature", "factoryData", "paymasterVerificationGasLimit",
             "paymasterPostOpGasLimit", "paymasterData"],
        ∃ s : List Char,
          (convert_user_operation_to_pimlico_format op signature).lookup k
            = some (PimlicoValue.pstr s) ∧ isLowerHex0x s) := by
  constructor
  · intro hf hp
    refine ⟨?_, ?_, ?_, ?_, ?_, ?_⟩ <;>
      simp [convert_user_operation_to_pimlico_format, hf, hp, List.lookup]
  · intro hf hd hp k hk
    obtain ⟨f, hfe⟩ := Option.ne_none_iff_exists'.mp hf
    obtain ⟨p, hpe⟩ := Option.ne_none_iff_exists'.mp hp
    have hcond : op.factory ≠ none ∧ op.factory_data ≠ [] := ⟨hf, hd⟩
    fin_cases hk
    · exact ⟨pyHex op.nonce,
        by simp [convert_user_operation_to_pimlico_format, List.lookup],
        pyHex_isLowerHex0x _⟩
    · exact ⟨bytesHex0x op.call_data,
        by simp [convert_user_operation_to_pimlico_format, List.lookup],
        bytesHex0x_isLowerHex0x _⟩
    · exact ⟨pyHex op.call_gas_limit,
        by simp [convert_user_operation_to_pimlico_format, List.lookup],
        pyHex_isLowerHex0x _⟩
    · exact ⟨pyHex op.verification_gas_limit,
        by simp [convert_user_operation_to_pimlico_format, List.lookup],
        pyHex_isLowerHex0x _⟩
    · exact ⟨pyHex op.pre_verification_gas,
        by simp [convert_user_operation_to_pimlico_format, List.lookup],
        pyHex_isLowerHex0x _⟩
    · exact ⟨pyHex op.max_fee_per_gas,
        by simp [convert_user_operation_to_pimlico_format, List.lookup],
        pyHex_isLowerHex0x _⟩
    · exact ⟨pyHex op.max_priority_fee_per_gas,
        by simp [convert_user_operation_to_pimlico_format, List.lookup],
        pyHex_isLowerHex0x _⟩
    · by_cases hs : signature = []
      · exact ⟨['0', 'x'],
          by simp [convert_user_operation_to_pimlico_format, List.lookup, hs],
          ⟨rfl, fun c hc => absurd hc (List.not_mem_nil c)⟩⟩
      · exact ⟨bytesHex0x signature,
          by simp [convert_user_operation_to_pimlico_format, List.lookup, hs],
          bytesHex0x_isLowerHex0x _⟩
    · exact ⟨bytesHex0x op.factory_data,
        by simp [convert_user_operation_to_pimlico_format, List.lookup, hcond],
        bytesHex0x_isLowerHex0x _⟩
    · exact ⟨pyHex op.paymaster_verification_gas_limit,
        by simp [convert_user_operation_to_pimlico_format, List.lookup, hpe],
        pyHex_isLowerHex0x _⟩
    · exact ⟨pyHex op.paymaster_post_op_gas_limit,
        by simp [convert_user_operation_to_pimlico_format, List.lookup, hpe],
        pyHex_isLowerHex0x _⟩
    · by_cases hpd : op.paymaster_data = []
      · exact ⟨['0', 'x'],
          by simp [convert_user_operation_to_pimlico_format, List.lookup, hpe, hpd],
          ⟨rfl, fun c hc => absurd hc (List.not_mem_nil c)⟩⟩
      · exact ⟨bytesHex0x op.paymaster_data,
          by simp [convert_user_operation_to_pimlico_format, List.lookup, hpe, hpd],
          bytesHex0x_isLowerHex0x _⟩

/-- Operation with factory, nonempty factory payload bytes and paymaster all
present, used as a closed instance for the wire format theorem. -/
def c9GoodOp : UserOperation :=
  { sampleOp with
    factory := some SMART_ACCOUNT_FACTORY.toList
    factory_data := [9, 9]
    paymaster := some SMART_ACCOUNT_FACTORY.toList }

/-- Witness for c9_wire_format at concrete Operations: the null block at an
Operation with neither factory nor paymaster, and one hex-encoded entry at an
Operation with factory, payload and paymaster present. -/
theorem c9_wire_format_witness :
    (convert_user_operation_to_pimlico_format sampleOp []).lookup "paymaster"
      = some PimlicoValue.pnull ∧
    ∃ s : List Char,
      (convert_user_operation_to_pimlico_format c9GoodOp [1, 2]).lookup "maxFeePerGas"
        = some (PimlicoValue.pstr s) ∧ isLowerHex0x s := by
  have h1 := (c9_wire_format sampleOp []).1 rfl rfl
  have h2 := (c9_wire_format c9GoodOp [1, 2]).2 (by decide) (by decide) (by decide)
    "maxFeePerGas" (by decide)
  exact ⟨h1.2.2.1, h2⟩
